import Mathlib

/-!
Verification of the Release-Notifier release watcher.

The Go sources are embedded shallowly: strings become `List Char`, the
`strings` package helpers used by the watcher are reimplemented with the
same semantics, and the extraction pipeline, transition detector and the
notification senders become pure Lean functions.  Machine integers that
can wrap (the `uint` retry counters) wrap explicitly modulo `2 ^ 64`.
Go's run-time bounds check on slice indexing is modelled by an explicit
`panic` outcome.
-/

set_option maxRecDepth 4096

/-- Go strings, as lists of characters. -/
abbrev Str := List Char

/-- Shorthand to write `Str` literals. -/
def str (s : String) : Str := s.toList

/-- Model of Go `strings.Contains`: `sub` occurs as a contiguous
substring of `s` (the empty string occurs in every string). -/
def stringsContains (s sub : Str) : Bool :=
  match s with
  | [] => sub.isEmpty
  | _ :: rest => sub.isPrefixOf s || stringsContains rest sub

/-- Worker for `stringsSplit` on a non-empty separator.  The fuel is an
upper bound on the recursion depth; callers pass `s.length + 1`, which
is always sufficient because each step consumes at least one character. -/
def goSplit (sep : Str) : Nat → Str → List Str
  | 0, s => [s]
  | _ + 1, [] => [[]]
  | fuel + 1, c :: rest =>
    if sep.isPrefixOf (c :: rest) then
      [] :: goSplit sep fuel ((c :: rest).drop sep.length)
    else
      match goSplit sep fuel rest with
      | [] => [[c]]
      | p :: ps => (c :: p) :: ps

/-- Model of Go `strings.Split`: split on every non-overlapping leftmost
occurrence of `sep`; an empty separator explodes the string into its
characters. -/
def stringsSplit (s sep : Str) : List Str :=
  if sep = [] then s.map (fun c => [c]) else goSplit sep (s.length + 1) s

/-- Model of Go `strings.Replace` with an empty `old`: `new` is inserted
before every character and once at the end. -/
def goReplaceEmptyOld (new : Str) : Str → Str
  | [] => new
  | c :: rest => new ++ c :: goReplaceEmptyOld new rest

/-- Worker for `stringsReplaceAll` on a non-empty `old`; fuel as in
`goSplit`. -/
def goReplace (old new : Str) : Nat → Str → Str
  | 0, s => s
  | _ + 1, [] => []
  | fuel + 1, c :: rest =>
    if old.isPrefixOf (c :: rest) then
      new ++ goReplace old new fuel ((c :: rest).drop old.length)
    else
      c :: goReplace old new fuel rest

/-- Model of Go `strings.ReplaceAll`: replace every non-overlapping
leftmost occurrence of `old` by `new`. -/
def stringsReplaceAll (s old new : Str) : Str :=
  if old = [] then goReplaceEmptyOld new s else goReplace old new (s.length + 1) s

/-- Worker for `stringsCount` on a non-empty pattern; fuel as in
`goSplit`. -/
def goCount (old : Str) : Nat → Str → Nat
  | 0, _ => 0
  | _ + 1, [] => 0
  | fuel + 1, c :: rest =>
    if old.isPrefixOf (c :: rest) then
      1 + goCount old fuel ((c :: rest).drop old.length)
    else
      goCount old fuel rest

/-- Model of Go `strings.Count`: the number of non-overlapping leftmost
occurrences of `old` in `s`; for an empty `old` this is `s.length + 1`. -/
def stringsCount (s old : Str) : Nat :=
  if old = [] then s.length + 1 else goCount old (s.length + 1) s

/-- Decimal rendering of a natural number (Go `strconv.Itoa` on
non-negative input). -/
def natToStr (n : Nat) : Str := Nat.toDigits 10 n

/-- `valueOrValueString` from main.go: `a` unless it is the zero value. -/
def valueOrValueString (a b : Str) : Str := if a = [] then b else a

/-- `valueOrValueUInt` from main.go: `a` unless it is the zero value. -/
def valueOrValueUInt (a b : Nat) : Nat := if a = 0 then b else a

/-! ## The URL-Command engine (service.go) -/

/-- `URLCommand` from service.go: one stage of the extraction program.
`index` is a Go `int`, so it is modelled as an integer. -/
structure URLCommand where
  type : Str
  regex : Str
  index : Int
  old : Str
  new : Str
  text : Str
  ignoreMiss : Str
deriving DecidableEq, Repr

/-- The `status` struct from service.go (the mutable per-Service state). -/
structure Status where
  version : Str
  regexMissesContent : Nat
  regexMissesVersion : Nat
  serviceMisses : Str
deriving DecidableEq, Repr

/-- `status.init` from service.go: the miss mask starts as `"0000"`. -/
def Status.initMask : Status :=
  { version := [], regexMissesContent := 0, regexMissesVersion := 0,
    serviceMisses := str "0000" }

/-- `getAtIndex` from service.go: the one-character slice `str[i:i+1]`. -/
def getAtIndex (s : Str) (index : Nat) : Str := (s.drop index).take 1

/-- `replaceAtIndex` from service.go:
`str[:index] + string(replacement) + str[index+1:]`. -/
def replaceAtIndex (s : Str) (replacement : Char) (index : Nat) : Str :=
  s.take index ++ [replacement] ++ s.drop (index + 1)

/-- Log events the engine can emit.  `warnMiss k` is the warning for
extraction-miss class `k`; `warnNegativeIndex` is the `regex_submatch`
negative-index warning. -/
inductive LogEvent where
  | warnMiss (cls : Nat)
  | warnNegativeIndex
deriving DecidableEq, Repr

/-- The guarded miss bookkeeping that appears at every miss site of
service.go (e.g. lines 227-230): log a warning only when bit `cls` of
the miss mask is still `'0'`, and set that bit.  The returned `Status`
is the state of whichever `Service` value the caller holds. -/
def registerMiss (st : Status) (cls : Nat) : Status × List LogEvent :=
  if getAtIndex st.serviceMisses cls = ['0'] then
    ({ st with serviceMisses := replaceAtIndex st.serviceMisses '1' cls },
     [LogEvent.warnMiss cls])
  else
    (st, [])

/-- Result of one `split`/`regex` evaluation.  `err` models the Go
`error` return being non-nil; `panic` models a Go run-time
index-out-of-range panic. -/
inductive EvalRes where
  | panic
  | ok (text : Str) (err : Bool) (st : Status) (logs : List LogEvent)
deriving DecidableEq, Repr

/-- The negative-index normalisation of service.go:199-203 / 239-243:
add the list length to a negative index. -/
def normIndex (len : Nat) (idx : Int) : Int :=
  if idx < 0 then (len : Int) + idx else idx

/-- The index-normalisation and bounds logic shared by the tails of
`URLCommand.split` (service.go:239-259) and `URLCommand.regex`
(service.go:199-219): add the list length to a negative index, signal
miss class `missCls` when `len(texts) - index < 1`, otherwise access
`texts[index]` (panicking exactly when the Go slice access would). -/
def selectIndex (st : Status) (texts : List Str) (idx : Int) (missCls : Nat)
    (ignoreMiss : Str) (origText : Str) : EvalRes :=
  let index : Int := normIndex texts.length idx
  if (texts.length : Int) - index < 1 then
    let (st', logs) := registerMiss st missCls
    EvalRes.ok origText (ignoreMiss = str "n") st' logs
  else if 0 ≤ index ∧ index < (texts.length : Int) then
    EvalRes.ok (texts.getD index.toNat []) false st []
  else
    EvalRes.panic

/-- `URLCommand.split` from service.go:222-260. -/
def URLCommand.split (c : URLCommand) (st : Status) (text : Str) : EvalRes :=
  let texts := stringsSplit text c.text
  if texts.length = 1 then
    let (st', logs) := registerMiss st 0
    EvalRes.ok text (c.ignoreMiss = str "n") st' logs
  else
    selectIndex st texts c.index 1 c.ignoreMiss text

/-- `URLCommand.regex` from service.go:170-220, factored over the list
of matches that `regexp` produced (`FindAllString` for `regex`,
`FindStringSubmatch` for `regex_submatch`). -/
def URLCommand.regexSelect (c : URLCommand) (st : Status) (text : Str)
    (ms : List Str) : EvalRes :=
  if ms.length = 0 then
    let (st', logs) := registerMiss st 2
    EvalRes.ok text (c.ignoreMiss = str "n") st' logs
  else
    selectIndex st ms c.index 3 c.ignoreMiss text

/-- The `regexp` engine, abstracted: `findAll pattern text` models
`regexp.MustCompile(pattern).FindAllString(text, -1)` and
`findSubmatch pattern text` models `FindStringSubmatch(text)`. -/
structure RegexEngine where
  findAll : Str → Str → List Str
  findSubmatch : Str → Str → List Str

/-- What `URLCommand.run` leaves its caller: the new text, the `error`
value handed back (service.go:167 / 162), the caller's `Service.status`
after the call, and the log events emitted.  The status is always the
input status, because `run` passes `*service` — a copy — to
`split`/`regex` (service.go:155,159), so their mask updates never
reach the caller's `Service`. -/
structure RunOut where
  text : Str
  abortErr : Bool
  status : Status
  logs : List LogEvent
deriving DecidableEq, Repr

/-- A run outcome: a Go panic, or a normal return. -/
inductive RunRes where
  | panic
  | ok (o : RunOut)
deriving DecidableEq, Repr

/-- `URLCommand.run` from service.go:145-168.  The `switch` dispatches on
`c.Type`; an unknown type leaves the text unchanged.  When the inner
command reports a miss error, line 162 returns `(textBak, nil)`: the
error is dropped and the backed-up text is restored. -/
def URLCommand.run (eng : RegexEngine) (c : URLCommand) (st : Status)
    (text : Str) : RunRes :=
  let inner : EvalRes :=
    if c.type = str "split" then
      c.split st text
    else if c.type = str "replace" then
      EvalRes.ok (stringsReplaceAll text c.old c.new) false st []
    else if c.type = str "regex" then
      c.regexSelect st text (eng.findAll c.regex text)
    else if c.type = str "regex_submatch" then
      match c.regexSelect st text (eng.findSubmatch c.regex text) with
      | EvalRes.panic => EvalRes.panic
      | EvalRes.ok t e s l =>
        EvalRes.ok t e s (if c.index < 0 then LogEvent.warnNegativeIndex :: l else l)
    else
      EvalRes.ok text false st []
  match inner with
  | EvalRes.panic => RunRes.panic
  | EvalRes.ok t e _stCopy l =>
    -- `_stCopy` is the mutated copy of the Service passed by value at
    -- service.go:155/159; it is discarded when `split`/`regex` return,
    -- so the caller's status stays `st`.
    if e then
      RunRes.ok { text := text, abortErr := false, status := st, logs := l }  -- service.go:161-163
    else
      RunRes.ok { text := t, abortErr := false, status := st, logs := l }

/-- `URLCommandSlice.run` from service.go:134-143: thread the text
through the commands, stopping at the first command whose `run` returns
a non-nil error. -/
def URLCommandSlice.run (eng : RegexEngine) : List URLCommand → Status → Str → RunRes
  | [], st, text => RunRes.ok { text := text, abortErr := false, status := st, logs := [] }
  | c :: rest, st, text =>
    match URLCommand.run eng c st text with
    | RunRes.panic => RunRes.panic
    | RunRes.ok o =>
      if o.abortErr then
        RunRes.ok o
      else
        match URLCommandSlice.run eng rest o.status o.text with
        | RunRes.panic => RunRes.panic
        | RunRes.ok o2 =>
          RunRes.ok { text := o2.text, abortErr := o2.abortErr, status := o2.status,
                      logs := o.logs ++ o2.logs }

/-- How `Service.query` consumes the engine (service.go:539-544): a
non-nil error makes the cycle return false, otherwise the text is the
extracted version. -/
inductive ExtractOut where
  | panic
  | abortedFalse
  | extracted (v : Str) (st : Status) (logs : List LogEvent)
deriving DecidableEq, Repr

/-- The engine invocation inside `Service.query` (service.go:539-544). -/
def queryRunURLCommands (eng : RegexEngine) (cmds : List URLCommand)
    (st : Status) (text : Str) : ExtractOut :=
  match URLCommandSlice.run eng cmds st text with
  | RunRes.panic => ExtractOut.panic
  | RunRes.ok o =>
    if o.abortErr then ExtractOut.abortedFalse
    else ExtractOut.extracted o.text o.status o.logs

/-! ## GitHub tag extraction inside `Service.query` (service.go:515-537) -/

/-- The `"tag_name"` marker (with its quotes, as in the source). -/
def tagNameMarker : Str := str "\"tag_name\""

/-- Outcome of the github branch of `Service.query`: a fatal exit
(`Bad credentials`), an early `return false`, a run-time panic on the
unguarded `[1]` slice access, or the extracted tag string. -/
inductive GHOut where
  | fatal
  | returnFalse
  | panic
  | version (v : Str)
deriving DecidableEq, Repr

/-- The unguarded three-split tag extraction of service.go:533-535:
`strings.Split(body, "tag_name")[1]`, then `Split(·, ",")[0]`, then
`Split(·, "\"")[1]`.  Index `[1]` panics when the split found nothing
to split on; index `[0]` always exists. -/
def githubTagSplit (body : Str) : GHOut :=
  let parts := stringsSplit body tagNameMarker
  if 1 < parts.length then
    let v1 := parts.getD 1 []
    let v2 := (stringsSplit v1 (str ",")).getD 0 []
    let parts3 := stringsSplit v2 (str "\"")
    if 1 < parts3.length then GHOut.version (parts3.getD 1 []) else GHOut.panic
  else
    GHOut.panic

/-- The whole github branch of `Service.query` (service.go:516-537): the
small-body guard checks the marker, credentials and rate limit, then the
unguarded tag extraction runs. -/
def githubExtract (body : Str) : GHOut :=
  if body.length < 500 then
    if ¬ stringsContains body tagNameMarker then
      if stringsContains body (str "Bad credentials") then GHOut.fatal
      else GHOut.returnFalse
    else if stringsContains body (str "rate limit") then GHOut.returnFalse
    else githubTagSplit body
  else
    githubTagSplit body

/-! ## Outgoing HTTP requests and their deadlines -/

/-- `Service` from service.go (the configuration fields used by the
embedded operations; the mutable `status` field is threaded separately). -/
structure Service where
  id : Str
  type : Str
  url : Str
  urlCommands : List URLCommand
  interval : Str
  progressiveVersioning : Str
  regexContent : Str
  regexVersion : Str
  ignoreMiss : Str
  accessToken : Str
  allowInvalidCerts : Str
deriving DecidableEq, Repr

/-- The deadline-relevant shape of an outgoing HTTP request:
`timeoutSeconds` is `some n` when the request is built with an
`n`-second `context.WithTimeout` deadline, `none` when no deadline is
attached.  Headers derived from randomness (the GitHub-emulation ids and
HMAC signatures) are outside this projection. -/
structure HTTPRequest where
  method : Str
  url : Str
  headers : List (Str × Str)
  timeoutSeconds : Option Nat
deriving DecidableEq, Repr

/-- The GET built by `Service.query` (service.go:478-490): no
`context.WithTimeout` and no client timeout is ever attached. -/
def queryRequest (s : Service) : HTTPRequest :=
  { method := str "GET", url := s.url,
    headers :=
      if s.accessToken ≠ [] then
        [(str "Authorization", str "token " ++ s.accessToken)]
      else [],
    timeoutSeconds := none }

/-- `WebHook` from webhook.go. -/
structure WebHook where
  type : Str
  url : Str
  secret : Str
  desiredStatusCode : Int
  delay : Str
  maxTries : Nat
  silentFails : Str
deriving DecidableEq, Repr

/-- The POST built by `WebHook.send` (webhook.go:443-468): a 5-second
`context.WithTimeout` deadline. -/
def webhookSendRequest (w : WebHook) : HTTPRequest :=
  { method := str "POST", url := w.url,
    headers := [(str "Content-Type", str "application/json")],
    timeoutSeconds := some 5 }

/-- `Slack` from slack.go. -/
structure Slack where
  url : Str
  iconEmoji : Str
  iconURL : Str
  username : Str
  message : Str
  delay : Str
  maxTries : Nat
deriving DecidableEq, Repr

/-- The POST built by `Slack.send` (slack.go:200-207): a 5-second
`context.WithTimeout` deadline. -/
def slackSendRequest (sl : Slack) : HTTPRequest :=
  { method := str "POST", url := sl.url, headers := [],
    timeoutSeconds := some 5 }

/-- `Gotify` from the gotify sender source. -/
structure Gotify where
  url : Str
  token : Str
  title : Str
  message : Str
  priority : Str
  delay : Str
  maxTries : Nat
deriving DecidableEq, Repr

/-- The POST built by `Gotify.send` (gotify source, `/message?token=`
URL, 5-second `context.WithTimeout` deadline). -/
def gotifySendRequest (g : Gotify) : HTTPRequest :=
  { method := str "POST",
    url := g.url ++ str "/message?token=" ++ g.token,
    headers := [(str "Content-Type", str "application/json")],
    timeoutSeconds := some 5 }

/-! ## The chat (Slack) payload (slack.go) -/

/-- `SlackPayload` from slack.go:113-118. -/
structure SlackPayload where
  username : Str
  iconEmoji : Str
  iconURL : Str
  text : Str
deriving DecidableEq, Repr

/-- The payload construction of `Slack.send` (slack.go:182-193): start
from the per-monitor override or the recipient default per field, then
blank the competing icon field when the per-monitor override set one. -/
def buildSlackPayload (svcSlack : Slack) (s : Slack) (message : Str) : SlackPayload :=
  let p : SlackPayload :=
    { username := valueOrValueString svcSlack.username s.username,
      iconEmoji := valueOrValueString svcSlack.iconEmoji s.iconEmoji,
      iconURL := valueOrValueString svcSlack.iconURL s.iconURL,
      text := message }
  if svcSlack.iconEmoji ≠ [] then { p with iconURL := [] }
  else if svcSlack.iconURL ≠ [] then { p with iconEmoji := [] }
  else p

/-- `Slack.setDefaults` from slack.go:63-83: icons are only taken from
the defaults when the recipient set neither of them. -/
def Slack.setDefaults (s : Slack) (defaults : Slack) : Slack :=
  let s1 := { s with delay := valueOrValueString s.delay defaults.delay }
  let s2 :=
    if s1.iconEmoji = [] ∧ s1.iconURL = [] then
      { s1 with iconEmoji := valueOrValueString s1.iconEmoji defaults.iconEmoji,
                iconURL := valueOrValueString s1.iconURL defaults.iconURL }
    else s1
  { s2 with maxTries := valueOrValueUInt s2.maxTries defaults.maxTries,
            message := valueOrValueString s2.message defaults.message,
            username := valueOrValueString s2.username defaults.username }

/-! ## Semantic versions (the `github.com/coreos/go-semver` library used
by service.go; the library is modelled from its source, it is not part
of this repository) -/

/-- Split `s` at the first occurrence of `delim`, like go-semver's
`splitOff` built on `strings.SplitN(s, delim, 2)`: the part before the
delimiter, and — when the delimiter occurs — the part after it. -/
def breakAtChar : Str → Char → Str × Option Str
  | [], _ => ([], none)
  | c :: rest, d =>
    if c = d then ([], some rest)
    else
      let (a, b) := breakAtChar rest d
      (c :: a, b)

/-- The value of a string of decimal digits. -/
def digitsToNat (s : Str) : Nat :=
  s.foldl (fun a c => a * 10 + (c.toNat - 48)) 0

/-- `strconv.ParseInt(s, 10, 64)` on a sign-free component: a non-empty
all-digit string whose value fits in an `int64`. -/
def parseI64 (s : Str) : Option Nat :=
  if s ≠ [] ∧ s.all Char.isDigit ∧ digitsToNat s < 2 ^ 63 then
    some (digitsToNat s)
  else none

/-- `strconv.Atoi`: optional sign, then digits, value fitting `int64`
(go-semver uses it on pre-release identifiers). -/
def parseAtoi (s : Str) : Option Int :=
  match s with
  | '-' :: rest =>
    if rest ≠ [] ∧ rest.all Char.isDigit ∧ digitsToNat rest ≤ 2 ^ 63 then
      some (-(digitsToNat rest : Int))
    else none
  | '+' :: rest => (parseI64 rest).map (fun n => (n : Int))
  | _ => (parseI64 s).map (fun n => (n : Int))

/-- `semver.Version` from go-semver: three numeric components plus the
pre-release and metadata strings. -/
structure SemVer where
  major : Nat
  minor : Nat
  patch : Nat
  pre : Str
  meta : Str
deriving DecidableEq, Repr

/-- `semver.NewVersion` / `Version.Set` from go-semver: split off the
metadata at the first `+`, the pre-release at the first `-`, then the
remainder must be exactly three dot-separated `int64` components. -/
def semverParse (s : Str) : Option SemVer :=
  let (v1, metaOpt) := breakAtChar s '+'
  let (v2, preOpt) := breakAtChar v1 '-'
  match breakAtChar v2 '.' with
  | (majS, some rest) =>
    match breakAtChar rest '.' with
    | (minS, some patchS) =>
      match parseI64 majS, parseI64 minS, parseI64 patchS with
      | some ma, some mi, some pa =>
        some { major := ma, minor := mi, patch := pa,
               pre := preOpt.getD [], meta := metaOpt.getD [] }
      | _, _, _ => none
    | (_, none) => none
  | (_, none) => none

/-- Go string comparison (`a < b`, lexicographic on bytes). -/
def strLt : Str → Str → Bool
  | [], [] => false
  | [], _ :: _ => true
  | _ :: _, [] => false
  | a :: as, b :: bs =>
    if a.toNat < b.toNat then true
    else if b.toNat < a.toNat then false
    else strLt as bs

/-- go-semver `recursivePreReleaseCompare` on the dot-split identifier
lists: numeric identifiers compare numerically and sort below
non-numeric ones; equal-valued numeric identifiers with different
spellings (such as `1` and `01`) fall through to the string comparison,
like the library's unconditional `a > b` / `a != b` checks after the
integer branch; a longer list wins when one is a prefix of the other. -/
def cmpPreSegments : List Str → List Str → Int
  | [], b => if b ≠ [] then -1 else 0
  | _ :: _, [] => 1
  | a :: as, b :: bs =>
    match parseAtoi a, parseAtoi b with
    | some _, none => -1
    | none, some _ => 1
    | some ai, some bi =>
      if ai ≠ bi then (if bi < ai then 1 else -1)
      else if a ≠ b then (if strLt b a then 1 else -1)
      else cmpPreSegments as bs
    | none, none =>
      if a ≠ b then (if strLt b a then 1 else -1) else cmpPreSegments as bs

/-- go-semver `preReleaseCompare`: of two otherwise-equal versions the
one without a pre-release is the greater. -/
def preReleaseCompare (a b : Str) : Int :=
  if a = [] ∧ b ≠ [] then 1
  else if b = [] ∧ a ≠ [] then -1
  else if a ≠ [] ∧ b ≠ [] then
    cmpPreSegments (stringsSplit a (str ".")) (stringsSplit b (str "."))
  else 0

/-- go-semver `Version.Compare`: major, minor, patch, then pre-release. -/
def semverCompare (v w : SemVer) : Int :=
  if w.major < v.major then 1 else if v.major < w.major then -1
  else if w.minor < v.minor then 1 else if v.minor < w.minor then -1
  else if w.patch < v.patch then 1 else if v.patch < w.patch then -1
  else preReleaseCompare v.pre w.pre

/-- go-semver `Version.LessThan`. -/
def semverLT (v w : SemVer) : Bool := semverCompare v w < 0

/-! ## The transition decision of `Service.query` (service.go:546-623) -/

/-- `regexCheckContent`'s template substitution (service.go:449-453):
`${version}` and `${version_no_v}` are substituted into the pattern
before matching. -/
def substContentPattern (re version : Str) : Str :=
  stringsReplaceAll
    (stringsReplaceAll re (str "${version}") version)
    (str "${version_no_v}") (stringsReplaceAll version (str "v") [])

/-- Outcome of a query cycle's transition decision: a fatal exit, or a
boolean "new release" together with the updated status. -/
inductive QueryRes where
  | fatal
  | res (newRelease : Bool) (st : Status)
deriving DecidableEq, Repr

/-- service.go:546-623: everything after the extraction pipeline.
`rmatch pattern text` abstracts `regexp.MustCompile(pattern).MatchString(text)`.
The progressive-versioning gate rejects a semver regression; a semver
parse failure on either side logs and falls through (fail-open); the two
regex filters count misses and return false; a first observation seeds
`status.version` and returns false (fatal first if progressive
versioning is on and the version does not parse); otherwise the version
is stored and the cycle reports a new release. -/
def decideTransition (rmatch : Str → Str → Bool) (svc : Service) (st : Status)
    (body version : Str) : QueryRes :=
  if version ≠ st.version then
    let progReject : Bool :=
      if svc.progressiveVersioning = str "y" ∧ st.version ≠ [] then
        match semverParse st.version, semverParse version with
        | some oldV, some newV => semverLT newV oldV
        | _, _ => false  -- failedSemanticVersioning: log error, fail open
      else false
    if progReject then
      QueryRes.res false st
    else if svc.regexContent ≠ [] ∧
        ¬ rmatch (substContentPattern svc.regexContent version) body then
      QueryRes.res false { st with regexMissesContent := st.regexMissesContent + 1 }
    else if svc.regexVersion ≠ [] ∧ ¬ rmatch svc.regexVersion version then
      QueryRes.res false { st with regexMissesVersion := st.regexMissesVersion + 1 }
    else
      let st' := { st with regexMissesContent := 0, regexMissesVersion := 0 }
      if st'.version = [] then
        if svc.progressiveVersioning = str "y" ∧ (semverParse version).isNone then
          QueryRes.fatal
        else
          QueryRes.res false { st' with version := version }
      else
        QueryRes.res true { st' with version := version }
  else
    QueryRes.res false st

/-! ## The notification senders and the give-up escalation
(webhook.go `WebHookSlice.send`, slack.go `SlackSlice.send`, and the
gotify sender).  Each sender is a retry loop around one HTTP POST; the
loop is driven here by the list of HTTP status codes the attempts
receive, and the `uint` `triesLeft` counter wraps modulo `2 ^ 64`
exactly as Go's `triesLeft--` does. -/

/-- `strconv.Itoa(code)[:1] == "2"`: the status code's decimal rendering
starts with the digit 2. -/
def statusFirstDigitIs2 (code : Nat) : Bool := (natToStr code).take 1 = ['2']

/-- Success condition of one webhook attempt (webhook.go:480): the
desired status code, or any `2xx` when the desired code is 0. -/
def webhookAttemptOK (w : WebHook) (code : Nat) : Bool :=
  ((code : Int) == w.desiredStatusCode) ||
    (w.desiredStatusCode == 0 && statusFirstDigitIs2 code)

/-- Go `uint` decrement with wrap-around. -/
def uintDec (n : Nat) : Nat := (n + (2 ^ 64 - 1)) % 2 ^ 64

/-- A notification channel kind. -/
inductive Channel where
  | chat
  | push
deriving DecidableEq, Repr

/-- One escalation send handed to a recipient: the channel, the
recipient's URL, and the literal message text. -/
structure Escalation where
  channel : Channel
  recipientURL : Str
  text : Str
deriving DecidableEq, Repr

/-- Terminal state of a sender's retry loop.  `outOfAttempts` means the
supplied list of attempt outcomes ended while the loop would continue. -/
inductive SenderOutcome where
  | succeeded
  | gaveUp (escalations : List Escalation)
  | outOfAttempts (triesLeft : Nat)
deriving DecidableEq, Repr

/-- The synthesised failure message of webhook.go:414:
`"<serviceID> (<monitorID>), Failed <MaxTries> times to send a WebHook to <URL>"`. -/
def webhookFailMessage (serviceID monitorID : Str) (maxTries : Nat) (url : Str) : Str :=
  serviceID ++ str " (" ++ monitorID ++ str "), Failed " ++ natToStr maxTries ++
    str " times to send a WebHook to " ++ url

/-- The webhook sender's retry loop (webhook.go:400-428), run against the
status codes its attempts receive.  On give-up, when `silent_fails` is
`"n"`, the failure message is dispatched once to every chat recipient
(`slacks.send`) and once to every push recipient (`gotifys.send`). -/
def webhookSenderLoop (w : WebHook) (monitorID serviceID : Str)
    (slacks : List Slack) (gotifys : List Gotify) :
    List Nat → Nat → SenderOutcome
  | [], triesLeft => SenderOutcome.outOfAttempts triesLeft
  | code :: rest, triesLeft =>
    if webhookAttemptOK w code then SenderOutcome.succeeded
    else
      let t' := uintDec triesLeft
      if t' = 0 then
        let msg := webhookFailMessage serviceID monitorID w.maxTries w.url
        SenderOutcome.gaveUp
          (if w.silentFails = str "n" then
            slacks.map (fun sl => { channel := Channel.chat, recipientURL := sl.url, text := msg })
              ++ gotifys.map (fun g => { channel := Channel.push, recipientURL := g.url, text := msg })
          else [])
      else webhookSenderLoop w monitorID serviceID slacks gotifys rest t'

/-- The chat sender's retry loop (slack.go:134-157): success on any
`2xx`; on give-up it only logs — no escalation is dispatched. -/
def slackSenderLoop (sl : Slack) : List Nat → Nat → SenderOutcome
  | [], triesLeft => SenderOutcome.outOfAttempts triesLeft
  | code :: rest, triesLeft =>
    if statusFirstDigitIs2 code then SenderOutcome.succeeded
    else
      let t' := uintDec triesLeft
      if t' = 0 then SenderOutcome.gaveUp []
      else slackSenderLoop sl rest t'

/-- The push (gotify) sender's retry loop: success on any `2xx`; on
give-up it only logs — no escalation is dispatched. -/
def gotifySenderLoop (g : Gotify) : List Nat → Nat → SenderOutcome
  | [], triesLeft => SenderOutcome.outOfAttempts triesLeft
  | code :: rest, triesLeft =>
    if statusFirstDigitIs2 code then SenderOutcome.succeeded
    else
      let t' := uintDec triesLeft
      if t' = 0 then SenderOutcome.gaveUp []
      else gotifySenderLoop g rest t'

/-- One escalation send to a chat recipient (`slacks.send` with the
failure message, one sender per recipient). -/
def chatEscalation (msgText : Str) (s : Slack) : Escalation :=
  { channel := Channel.chat, recipientURL := s.url, text := msgText }

/-- One escalation send to a push recipient (`gotifys.send` with the
failure message, one sender per recipient). -/
def pushEscalation (msgText : Str) (g : Gotify) : Escalation :=
  { channel := Channel.push, recipientURL := g.url, text := msgText }

/-! ## Concrete example inputs used by counterexamples and witnesses -/

/-- A `split` command on a comma with index 0 and `ignore_misses: n`. -/
def cmdSplitComma : URLCommand :=
  { type := str "split", regex := [], index := 0, old := [], new := [],
    text := str ",", ignoreMiss := str "n" }

/-- A `split` command on a comma with the very negative index `-5`. -/
def cmdSplitNeg : URLCommand :=
  { type := str "split", regex := [], index := -5, old := [], new := [],
    text := str ",", ignoreMiss := str "n" }

/-- A `replace` command turning `"an"` into `"XY"`. -/
def cmdReplaceAn : URLCommand :=
  { type := str "replace", regex := [], index := 0, old := str "an",
    new := str "XY", text := [], ignoreMiss := str "n" }

/-- A regex engine with no matches (the engine is irrelevant to the
`split`/`replace` commands exercised by the witnesses). -/
def exEngine : RegexEngine := ⟨fun _ _ => [], fun _ _ => []⟩

/-- A concrete github-type Service with progressive versioning on. -/
def exService : Service :=
  { id := str "go-gitea/gitea", type := str "github",
    url := str "https://api.github.com/repos/go-gitea/gitea/releases/latest",
    urlCommands := [], interval := str "10m",
    progressiveVersioning := str "y", regexContent := [], regexVersion := [],
    ignoreMiss := str "n", accessToken := [], allowInvalidCerts := str "n" }

/-- A chat recipient configured with both an emoji icon and a URL icon. -/
def slackBothIcons : Slack :=
  { url := str "https://chat.example/hook", iconEmoji := str ":github:",
    iconURL := str "https://icon.example/i.png", username := str "Release Notifier",
    message := str "msg", delay := str "0s", maxTries := 3 }

/-- A per-monitor Slack override that sets nothing. -/
def slackOverrideEmpty : Slack :=
  { url := [], iconEmoji := [], iconURL := [], username := [], message := [],
    delay := [], maxTries := 0 }

/-- A per-monitor Slack override that sets only the emoji icon. -/
def slackOverrideEmoji : Slack :=
  { url := [], iconEmoji := str ":tada:", iconURL := [], username := [],
    message := [], delay := [], maxTries := 0 }

/-- Chat defaults (emoji icon, username, message set). -/
def slackDefaultsEx : Slack :=
  { url := [], iconEmoji := str ":github:", iconURL := [],
    username := str "Release Notifier", message := str "msg", delay := str "0s",
    maxTries := 3 }

/-- A webhook recipient with two tries, a desired status of 202 and
`silent_fails: n`. -/
def exWebHook : WebHook :=
  { type := str "github", url := str "https://awx.example/hook",
    secret := str "s", desiredStatusCode := 202, delay := str "0s",
    maxTries := 2, silentFails := str "n" }

/-- A push recipient. -/
def exGotify : Gotify :=
  { url := str "https://gotify.example", token := str "t", title := [],
    message := [], priority := str "5", delay := str "0s", maxTries := 3 }

/-- The stored status of a Service whose last version was `1.2.10`. -/
def stOld : Status :=
  { version := str "1.2.10", regexMissesContent := 0, regexMissesVersion := 0,
    serviceMisses := str "0000" }

/-- A 500-character response body that does not contain `"tag_name"`. -/
def largeBody : Str := List.replicate 500 'a'

/-! ## Helper lemmas -/

/-- `semverParse` rejects the empty string, so a stored version that
parses is in particular non-empty. -/
theorem semverParse_nil : semverParse [] = none := rfl

/-- `goSplit` finds nothing to split on when the separator does not
occur, for any fuel. -/
theorem goSplit_of_not_contains (sep : Str) :
    ∀ (fuel : Nat) (s : Str), stringsContains s sep = false → goSplit sep fuel s = [s] := by
  intro fuel
  induction fuel with
  | zero => intro s _; rfl
  | succ n ih =>
    intro s h
    cases s with
    | nil => rfl
    | cons c rest =>
      unfold stringsContains at h
      rw [Bool.or_eq_false_iff] at h
      unfold goSplit
      rw [if_neg (by simp [h.1])]
      rw [ih rest h.2]

/-- `strings.Split` returns the whole string as its single element when
the (non-empty) separator does not occur. -/
theorem stringsSplit_of_not_contains (s sep : Str) (hsep : sep ≠ [])
    (h : stringsContains s sep = false) : stringsSplit s sep = [s] := by
  unfold stringsSplit
  rw [if_neg hsep]
  exact goSplit_of_not_contains sep _ s h

/-- Length of the empty-`old` replacement: `new` is inserted at every
one of the `s.length + 1` boundaries. -/
theorem goReplaceEmptyOld_length (new : Str) :
    ∀ s : Str, (goReplaceEmptyOld new s).length = new.length + s.length * (new.length + 1) := by
  intro s
  induction s with
  | nil => simp [goReplaceEmptyOld]
  | cons c rest ih =>
    simp only [goReplaceEmptyOld, List.length_append, List.length_cons, ih]
    ring

/-- Each of the `goCount` occurrences changes the length by
`new.length - old.length`. -/
theorem goReplace_goCount_length (old new : Str) (hold : old ≠ []) :
    ∀ (fuel : Nat) (s : Str), s.length < fuel →
    ((goReplace old new fuel s).length : Int) =
      (s.length : Int) + (goCount old fuel s : Int) * ((new.length : Int) - (old.length : Int)) := by
  intro fuel
  induction fuel with
  | zero => intro s hs; exact absurd hs (Nat.not_lt_zero _)
  | succ n ih =>
    intro s hs
    cases s with
    | nil => simp [goReplace, goCount]
    | cons c rest =>
      have holdlen : 1 ≤ old.length := by
        cases old with
        | nil => exact absurd rfl hold
        | cons a as => simp
      by_cases hp : old.isPrefixOf (c :: rest) = true
      · have hle : old.length ≤ (c :: rest).length :=
          (List.isPrefixOf_iff_prefix.mp hp).length_le
        have hdrop : ((c :: rest).drop old.length).length = (c :: rest).length - old.length :=
          List.length_drop _ _
        have hlt : ((c :: rest).drop old.length).length < n := by
          rw [hdrop]
          simp only [List.length_cons] at hs hle ⊢
          omega
        have hcast : (((c :: rest).drop old.length).length : Int) =
            ((c :: rest).length : Int) - (old.length : Int) := by
          rw [hdrop]
          exact Nat.cast_sub hle
        simp only [goReplace, goCount, if_pos hp, List.length_append]
        push_cast
        rw [ih _ hlt, hcast]
        ring
      · have hlt : rest.length < n := by
          simp only [List.length_cons] at hs
          omega
        simp only [goReplace, goCount, if_neg hp, List.length_cons]
        push_cast
        rw [ih _ hlt]
        ring

/-- The length law of `strings.ReplaceAll`:
`|result| = |input| + occurrences * (|new| - |old|)`. -/
theorem stringsReplaceAll_length (s old new : Str) :
    ((stringsReplaceAll s old new).length : Int) =
      (s.length : Int) + (stringsCount s old : Int) * ((new.length : Int) - (old.length : Int)) := by
  by_cases h : old = []
  · subst h
    unfold stringsReplaceAll stringsCount
    rw [if_pos rfl, if_pos rfl, goReplaceEmptyOld_length]
    simp only [List.length_nil]
    push_cast
    ring
  · unfold stringsReplaceAll stringsCount
    rw [if_neg h, if_neg h]
    exact goReplace_goCount_length old new h _ s (Nat.lt_succ_self _)

/-! ## The claims -/

/-- C1: the claim says a miss with `ignore_misses: n` aborts the
URL-Command program (`URLCommandSlice.run` returns an error) and makes
the querier return false.  The code does not: `URLCommand.split`
reports the class-0 miss with a non-nil error, but `URLCommand.run`
(service.go:161-163) returns `(textBak, nil)`, so `URLCommandSlice.run`
sees no error and `Service.query` proceeds with the unfiltered text
instead of returning false. -/
theorem urlCommand_run_swallows_miss_error : ∀ eng : RegexEngine,
    URLCommand.split cmdSplitComma Status.initMask (str "abc") =
      EvalRes.ok (str "abc") true
        { version := [], regexMissesContent := 0, regexMissesVersion := 0,
          serviceMisses := str "1000" }
        [LogEvent.warnMiss 0] ∧
    queryRunURLCommands eng [cmdSplitComma] Status.initMask (str "abc") =
      ExtractOut.extracted (str "abc") Status.initMask [LogEvent.warnMiss 0] := by
  intro eng
  exact ⟨by decide, rfl⟩

/-- C2: the claim says each miss class warns at most once per Service
lifetime.  The code does not: `split`/`regex` set the mask bit on a
by-value copy of the Service (service.go:155,159), so the caller's mask
is still `"0000"` after the first missing cycle and the second cycle
emits the class-0 warning again. -/
theorem miss_mask_update_lost_warns_every_cycle : ∀ eng : RegexEngine,
    ∃ st1 logs1 st2 logs2,
      queryRunURLCommands eng [cmdSplitComma] Status.initMask (str "abc") =
        ExtractOut.extracted (str "abc") st1 logs1 ∧
      LogEvent.warnMiss 0 ∈ logs1 ∧
      queryRunURLCommands eng [cmdSplitComma] st1 (str "abc") =
        ExtractOut.extracted (str "abc") st2 logs2 ∧
      LogEvent.warnMiss 0 ∈ logs2 := by
  intro eng
  exact ⟨Status.initMask, [LogEvent.warnMiss 0], Status.initMask, [LogEvent.warnMiss 0],
    rfl, by decide, rfl, by decide⟩

/-- C3 counterexample: splitting `"a,b"` on `","` with index `-5`
normalises the index to `-3`, passes the `len - index < 1` guard, and
the slice access panics — the evaluation is not safe for every negative
index. -/
theorem split_very_negative_index_panics :
    URLCommand.split cmdSplitNeg Status.initMask (str "a,b") = EvalRes.panic := by
  decide

/-- C3 (amended): for indices no smaller than the negated list length,
the shared index logic of `split`/`regex`/`regex_submatch` either
signals the out-of-range miss class or accesses a valid in-bounds
position; indices below `-length` pass the guard and panic. -/
theorem selectIndex_inRange_of_index_ge_neg_length :
    ∀ (st : Status) (texts : List Str) (idx : Int) (cls : Nat) (ig orig : Str),
    -(texts.length : Int) ≤ idx →
    ((texts.length : Int) - normIndex texts.length idx < 1 ∧
      selectIndex st texts idx cls ig orig =
        EvalRes.ok orig (decide (ig = str "n")) (registerMiss st cls).1 (registerMiss st cls).2) ∨
    (0 ≤ normIndex texts.length idx ∧ normIndex texts.length idx < (texts.length : Int) ∧
      selectIndex st texts idx cls ig orig =
        EvalRes.ok (texts.getD (normIndex texts.length idx).toNat []) false st []) := by
  intro st texts idx cls ig orig hge
  by_cases hmiss : (texts.length : Int) - normIndex texts.length idx < 1
  · left
    refine ⟨hmiss, ?_⟩
    simp only [selectIndex, registerMiss]
    rw [if_pos hmiss]
  · right
    have h0 : 0 ≤ normIndex texts.length idx := by
      unfold normIndex
      by_cases hneg : idx < 0
      · rw [if_pos hneg]; omega
      · rw [if_neg hneg]; omega
    have hlt : normIndex texts.length idx < (texts.length : Int) := by omega
    refine ⟨h0, hlt, ?_⟩
    simp only [selectIndex]
    rw [if_neg hmiss, if_pos ⟨h0, hlt⟩]

/-- C3 witness: index `-1` on the two-element list from splitting
`"a,b"` is in range and selects the last element. -/
theorem selectIndex_inRange_witness :
    -((([str "a", str "b"] : List Str).length : Int)) ≤ (-1 : Int) ∧
    (((([str "a", str "b"] : List Str).length : Int) -
        normIndex ([str "a", str "b"] : List Str).length (-1) < 1 ∧
      selectIndex Status.initMask [str "a", str "b"] (-1) 1 (str "n") (str "a,b") =
        EvalRes.ok (str "a,b") (decide ((str "n") = str "n"))
          (registerMiss Status.initMask 1).1 (registerMiss Status.initMask 1).2) ∨
    (0 ≤ normIndex ([str "a", str "b"] : List Str).length (-1) ∧
      normIndex ([str "a", str "b"] : List Str).length (-1) <
        (([str "a", str "b"] : List Str).length : Int) ∧
      selectIndex Status.initMask [str "a", str "b"] (-1) 1 (str "n") (str "a,b") =
        EvalRes.ok (([str "a", str "b"] : List Str).getD
          (normIndex ([str "a", str "b"] : List Str).length (-1)).toNat [])
          false Status.initMask [])) :=
  ⟨by decide,
   selectIndex_inRange_of_index_ge_neg_length Status.initMask [str "a", str "b"]
     (-1) 1 (str "n") (str "a,b") (by decide)⟩

/-- C4 counterexample: the querier's GET to the Service URL is built
with no request deadline at all (service.go:478-490 attaches no
context), so it is not built with the claimed 5-second timeout. -/
theorem queryRequest_no_five_second_timeout :
    ¬ ((queryRequest exService).timeoutSeconds = some 5) := by decide

/-- C4 (amended): the three notification sends each carry a 5-second
request-scoped timeout, but the querier's GET request carries no
deadline at all. -/
theorem send_timeouts_five_query_none :
    ∀ (s : Service) (w : WebHook) (sl : Slack) (g : Gotify),
    (queryRequest s).timeoutSeconds = none ∧
    (webhookSendRequest w).timeoutSeconds = some 5 ∧
    (slackSendRequest sl).timeoutSeconds = some 5 ∧
    (gotifySendRequest g).timeoutSeconds = some 5 := by
  intro s w sl g
  exact ⟨rfl, rfl, rfl, rfl⟩

/-- C5 counterexample: a recipient configured with both icons survives
`Slack.setDefaults` unchanged, and when the per-monitor override sets
neither icon the payload is sent with `icon_emoji` and `icon_url` both
non-empty — they are not mutually exclusive on every payload. -/
theorem slackPayload_both_icons_when_override_empty :
    Slack.setDefaults slackBothIcons slackDefaultsEx = slackBothIcons ∧
    (buildSlackPayload slackOverrideEmpty slackBothIcons (str "hello")).iconEmoji ≠ [] ∧
    (buildSlackPayload slackOverrideEmpty slackBothIcons (str "hello")).iconURL ≠ [] := by
  decide

/-- C5 (amended): whenever the per-monitor override sets at least one of
the icon fields, the override wins and the emitted payload never
carries both icons; with an empty override a recipient carrying both
icons transmits both. -/
theorem slackPayload_icon_exclusive_of_override :
    ∀ (svcSlack s : Slack) (msg : Str),
    svcSlack.iconEmoji ≠ [] ∨ svcSlack.iconURL ≠ [] →
    ¬ ((buildSlackPayload svcSlack s msg).iconEmoji ≠ [] ∧
       (buildSlackPayload svcSlack s msg).iconURL ≠ []) := by
  intro svcSlack s msg h
  unfold buildSlackPayload
  by_cases h1 : svcSlack.iconEmoji = []
  · have h2 : svcSlack.iconURL ≠ [] := h.resolve_left (by simp [h1])
    rw [if_neg (by simp [h1]), if_pos h2]
    simp
  · rw [if_pos h1]
    simp

/-- C5 witness: an override that sets only the emoji icon yields a
payload that does not carry both icons. -/
theorem slackPayload_icon_exclusive_witness :
    (slackOverrideEmoji.iconEmoji ≠ [] ∨ slackOverrideEmoji.iconURL ≠ []) ∧
    ¬ ((buildSlackPayload slackOverrideEmoji slackBothIcons (str "m")).iconEmoji ≠ [] ∧
       (buildSlackPayload slackOverrideEmoji slackBothIcons (str "m")).iconURL ≠ []) :=
  ⟨Or.inl (by decide),
   slackPayload_icon_exclusive_of_override slackOverrideEmoji slackBothIcons (str "m")
     (Or.inl (by decide))⟩

/-- C6: with progressive versioning on, when the stored version and the
extracted version both parse as semantic versions and the new one is
strictly less than the old one, the cycle returns false with the whole
status (in particular `status.version`) unchanged.  Consequently an
accepted transition (`res true`) between two parsing versions can never
satisfy `semverLT`, so consecutive accepted semver versions are
non-decreasing. -/
theorem progressive_versioning_rejects_semver_regression :
    ∀ (rmatch : Str → Str → Bool) (svc : Service) (st : Status)
    (body v : Str) (o n : SemVer),
    svc.progressiveVersioning = str "y" →
    semverParse st.version = some o →
    semverParse v = some n →
    semverLT n o = true →
    decideTransition rmatch svc st body v = QueryRes.res false st := by
  intro rmatch svc st body v o n hprog hold hnew hlt
  have hnil : st.version ≠ [] := by
    intro h
    rw [h, semverParse_nil] at hold
    exact Option.noConfusion hold
  unfold decideTransition
  by_cases hv : v ≠ st.version
  · rw [if_pos hv]
    have hcond : svc.progressiveVersioning = str "y" ∧ st.version ≠ [] := ⟨hprog, hnil⟩
    simp only [if_pos hcond, hold, hnew, hlt, if_pos]
  · rw [if_neg hv]

/-- C6 witness: stored `1.2.10`, extracted `1.2.9` — the cycle returns
false and the status is untouched. -/
theorem progressive_versioning_rejects_semver_regression_witness :
    semverParse (str "1.2.10") = some ⟨1, 2, 10, [], []⟩ ∧
    semverParse (str "1.2.9") = some ⟨1, 2, 9, [], []⟩ ∧
    semverLT ⟨1, 2, 9, [], []⟩ ⟨1, 2, 10, [], []⟩ = true ∧
    decideTransition (fun _ _ => true) exService stOld [] (str "1.2.9") =
      QueryRes.res false stOld :=
  ⟨by decide, by decide, by decide,
   progressive_versioning_rejects_semver_regression (fun _ _ => true) exService stOld
     [] (str "1.2.9") ⟨1, 2, 10, [], []⟩ ⟨1, 2, 9, [], []⟩
     rfl (by decide) (by decide) (by decide)⟩

/-- C7: the first cycle whose extracted version passes the content and
version filters while `status.version` is still empty (and does not hit
the progressive-versioning fatal) only seeds the state: it stores the
version, resets the regex-miss counters and returns false — no
notification fan-out on the first accepted version. -/
theorem first_observed_version_seeds_and_returns_false :
    ∀ (rmatch : Str → Str → Bool) (svc : Service) (st : Status) (body v : Str),
    st.version = [] →
    v ≠ [] →
    (svc.regexContent ≠ [] → rmatch (substContentPattern svc.regexContent v) body = true) →
    (svc.regexVersion ≠ [] → rmatch svc.regexVersion v = true) →
    (svc.progressiveVersioning = str "y" → (semverParse v).isSome) →
    decideTransition rmatch svc st body v =
      QueryRes.res false
        { version := v, regexMissesContent := 0, regexMissesVersion := 0,
          serviceMisses := st.serviceMisses } := by
  intro rmatch svc st body v hempty hne hcontent hversion hprog
  have hv : v ≠ st.version := by rw [hempty]; exact hne
  unfold decideTransition
  rw [if_pos hv]
  have hreject : ¬ (svc.progressiveVersioning = str "y" ∧ st.version ≠ []) := by
    intro hx
    exact hx.2 hempty
  rw [if_neg hreject, if_neg (by decide : ¬ (false = true))]
  have hc : ¬ (svc.regexContent ≠ [] ∧
      ¬ rmatch (substContentPattern svc.regexContent v) body = true) := by
    intro hx
    exact hx.2 (hcontent hx.1)
  rw [if_neg hc]
  have hver : ¬ (svc.regexVersion ≠ [] ∧ ¬ rmatch svc.regexVersion v = true) := by
    intro hx
    exact hx.2 (hversion hx.1)
  rw [if_neg hver]
  rw [if_pos (by simpa using hempty)]
  have hfatal : ¬ (svc.progressiveVersioning = str "y" ∧ (semverParse v).isNone = true) := by
    intro hx
    have hsome := hprog hx.1
    rw [Option.isNone_iff_eq_none] at hx
    rw [hx.2] at hsome
    simp at hsome
  rw [if_neg hfatal]

/-- C7 witness: an empty stored version and extracted `1.2.3` seed the
status and return false. -/
theorem first_observed_version_seeds_witness :
    decideTransition (fun _ _ => true) exService Status.initMask [] (str "1.2.3") =
      QueryRes.res false
        { version := str "1.2.3", regexMissesContent := 0, regexMissesVersion := 0,
          serviceMisses := Status.initMask.serviceMisses } :=
  first_observed_version_seeds_and_returns_false (fun _ _ => true) exService
    Status.initMask [] (str "1.2.3") rfl (by decide)
    (fun h => absurd rfl h) (fun h => absurd rfl h) (fun _ => by decide)

/-- C8: when a webhook sender exhausts its retry budget and the
recipient's `silent_fails` is `"n"`, the synthesised failure message is
dispatched exactly once to each chat recipient and exactly once to each
push recipient of the Monitor (in list order); chat and push senders
that give up dispatch no escalation at all. -/
theorem webhook_giveup_escalates_to_each_chat_and_push_once :
    ∀ (w : WebHook) (monitorID serviceID : Str)
    (slacks : List Slack) (gotifys : List Gotify) (codes : List Nat) (triesLeft : Nat)
    (escs : List Escalation) (sl : Slack) (g : Gotify)
    (codes2 : List Nat) (t2 : Nat) (e2 : List Escalation)
    (codes3 : List Nat) (t3 : Nat) (e3 : List Escalation),
    webhookSenderLoop w monitorID serviceID slacks gotifys codes triesLeft =
      SenderOutcome.gaveUp escs →
    w.silentFails = str "n" →
    slackSenderLoop sl codes2 t2 = SenderOutcome.gaveUp e2 →
    gotifySenderLoop g codes3 t3 = SenderOutcome.gaveUp e3 →
    escs =
      slacks.map (chatEscalation (webhookFailMessage serviceID monitorID w.maxTries w.url)) ++
      gotifys.map (pushEscalation (webhookFailMessage serviceID monitorID w.maxTries w.url)) ∧
    e2 = [] ∧ e3 = [] := by
  intro w monitorID serviceID slacks gotifys codes triesLeft escs sl g codes2 t2 e2 codes3 t3 e3
  intro hw hsilent hsl hg
  refine ⟨?_, ?_, ?_⟩
  · induction codes generalizing triesLeft with
    | nil => exact absurd hw (by simp [webhookSenderLoop])
    | cons code rest ih =>
      unfold webhookSenderLoop at hw
      by_cases hok : webhookAttemptOK w code = true
      · rw [if_pos hok] at hw
        exact absurd hw (by simp)
      · rw [if_neg hok] at hw
        by_cases hz : uintDec triesLeft = 0
        · rw [if_pos hz] at hw
          simp only [if_pos hsilent] at hw
          have h2 := (SenderOutcome.gaveUp.inj hw).symm
          simpa [chatEscalation, pushEscalation] using h2
        · rw [if_neg hz] at hw
          exact ih _ hw
  · induction codes2 generalizing t2 with
    | nil => exact absurd hsl (by simp [slackSenderLoop])
    | cons code rest ih =>
      unfold slackSenderLoop at hsl
      by_cases hok : statusFirstDigitIs2 code = true
      · rw [if_pos hok] at hsl
        exact absurd hsl (by simp)
      · rw [if_neg hok] at hsl
        by_cases hz : uintDec t2 = 0
        · rw [if_pos hz] at hsl
          exact (SenderOutcome.gaveUp.inj hsl).symm
        · rw [if_neg hz] at hsl
          exact ih _ hsl
  · induction codes3 generalizing t3 with
    | nil => exact absurd hg (by simp [gotifySenderLoop])
    | cons code rest ih =>
      unfold gotifySenderLoop at hg
      by_cases hok : statusFirstDigitIs2 code = true
      · rw [if_pos hok] at hg
        exact absurd hg (by simp)
      · rw [if_neg hok] at hg
        by_cases hz : uintDec t3 = 0
        · rw [if_pos hz] at hg
          exact (SenderOutcome.gaveUp.inj hg).symm
        · rw [if_neg hz] at hg
          exact ih _ hg

/-- C8 witness: a webhook with two tries receiving 500 twice gives up
and escalates once to the chat recipient and once to the push
recipient; a chat sender and a push sender that give up escalate to
nobody. -/
theorem webhook_giveup_escalates_witness :
    webhookSenderLoop exWebHook (str "mon") (str "svc") [slackBothIcons] [exGotify]
        [500, 500] 2 =
      SenderOutcome.gaveUp
        ([slackBothIcons].map
          (chatEscalation (webhookFailMessage (str "svc") (str "mon")
            exWebHook.maxTries exWebHook.url)) ++
         [exGotify].map
          (pushEscalation (webhookFailMessage (str "svc") (str "mon")
            exWebHook.maxTries exWebHook.url))) ∧
    (([slackBothIcons].map
        (chatEscalation (webhookFailMessage (str "svc") (str "mon")
          exWebHook.maxTries exWebHook.url)) ++
      [exGotify].map
        (pushEscalation (webhookFailMessage (str "svc") (str "mon")
          exWebHook.maxTries exWebHook.url))) =
      [slackBothIcons].map
        (chatEscalation (webhookFailMessage (str "svc") (str "mon")
          exWebHook.maxTries exWebHook.url)) ++
      [exGotify].map
        (pushEscalation (webhookFailMessage (str "svc") (str "mon")
          exWebHook.maxTries exWebHook.url)) ∧
     ([] : List Escalation) = [] ∧ ([] : List Escalation) = []) :=
  ⟨by decide,
   webhook_giveup_escalates_to_each_chat_and_push_once exWebHook (str "mon") (str "svc")
     [slackBothIcons] [exGotify] [500, 500] 2 _ slackBothIcons exGotify
     [500] 1 [] [500] 1 []
     (by decide) rfl (by decide) (by decide)⟩

/-- C9: a `replace` command never misses — `URLCommand.run` returns the
replaced text with no error and no log — and the output length obeys
`|result| = |input| + occurrences(old, input) * (|new| - |old|)`. -/
theorem replace_command_never_misses_and_length_law :
    ∀ (eng : RegexEngine) (c : URLCommand) (st : Status) (text : Str),
    c.type = str "replace" →
    URLCommand.run eng c st text =
      RunRes.ok { text := stringsReplaceAll text c.old c.new, abortErr := false,
                  status := st, logs := [] } ∧
    ((stringsReplaceAll text c.old c.new).length : Int) =
      (text.length : Int) +
        (stringsCount text c.old : Int) * ((c.new.length : Int) - (c.old.length : Int)) := by
  intro eng c st text h
  constructor
  · unfold URLCommand.run
    rw [h]
    rw [if_neg (by decide : ¬ (str "replace" = str "split"))]
    rw [if_pos rfl]
    rfl
  · exact stringsReplaceAll_length text c.old c.new

/-- C9 witness: replacing `"an"` by `"XY"` in `"banana"` — two
occurrences, lengths `6 + 2 * (2 - 2) = 6`. -/
theorem replace_command_length_law_witness :
    cmdReplaceAn.type = str "replace" ∧
    (URLCommand.run exEngine cmdReplaceAn Status.initMask (str "banana") =
      RunRes.ok { text := stringsReplaceAll (str "banana") cmdReplaceAn.old cmdReplaceAn.new,
                  abortErr := false, status := Status.initMask, logs := [] } ∧
    ((stringsReplaceAll (str "banana") cmdReplaceAn.old cmdReplaceAn.new).length : Int) =
      ((str "banana").length : Int) +
        (stringsCount (str "banana") cmdReplaceAn.old : Int) *
          ((cmdReplaceAn.new.length : Int) - (cmdReplaceAn.old.length : Int))) :=
  ⟨rfl, replace_command_never_misses_and_length_law exEngine cmdReplaceAn Status.initMask
    (str "banana") rfl⟩

/-- C10: for a github-type Service, a body of 500 or more characters
that does not contain the `"tag_name"` marker yields a one-element
split, so the unguarded `[1]` access panics: the small-body guard is
the only marker check before indexing, and the extraction is not
total. -/
theorem github_extract_panics_on_large_body_without_marker :
    ∀ body : Str, 500 ≤ body.length →
    stringsContains body tagNameMarker = false →
    (stringsSplit body tagNameMarker).length = 1 ∧ githubExtract body = GHOut.panic := by
  intro body hlen hmark
  have hs : stringsSplit body tagNameMarker = [body] :=
    stringsSplit_of_not_contains body tagNameMarker (by decide) hmark
  refine ⟨by rw [hs]; rfl, ?_⟩
  unfold githubExtract
  rw [if_neg (by omega)]
  unfold githubTagSplit
  rw [hs]
  rw [if_neg (by simp)]

/-- C10 witness: 500 repetitions of `'a'` make the github extraction
panic. -/
theorem github_extract_panics_witness :
    500 ≤ largeBody.length ∧
    stringsContains largeBody tagNameMarker = false ∧
    ((stringsSplit largeBody tagNameMarker).length = 1 ∧
      githubExtract largeBody = GHOut.panic) :=
  ⟨by decide, by decide,
   github_extract_panics_on_large_body_without_marker largeBody (by decide) (by decide)⟩
